import Mathlib

/-!
# check_deep_ping: the fetch / parse / evaluate / report pipeline

A shallow embedding of `main.go` (a Nagios plugin that fetches a "deep ping"
XML document and turns it into a one-line verdict plus an exit code), and
theorems about the verdicts it produces.

Conventions of the embedding:

* `os.Exit` is modelled by returning an `Outcome`: what was written to standard
  output and the exit status.
* Go `float64` values are modelled by `F64`; only their order and their
  truncation to an integer are computed, both exactly.
* Behaviour of the Go standard library and of third-party packages that the
  program only calls (upper-casing, `Duration.Seconds`, the renderings of the
  verbs `%f` and `%q`, the logger) is a parameter, `GoLib`.
* `int` and `time.Duration` are 64-bit two's-complement integers.
* The `select` of `run_check` is resolved by an input, `Selected`: the event
  that ends the wait.  No clock is modelled.
* The logger writes to standard output (`log.SetOutput(os.Stdout)`), so the
  lines of `log.Debugf` are part of `Outcome.stdout` of a run; what the logger
  writes for a message, nothing when the level is above debug, is part of
  `GoLib`.
* The request headers and the transport settings of `geturl` are left out.
-/

namespace DeepPing

/-! ## Numbers -/

/-- A Go `float64` value, as far as the program observes it: not-a-number, the
two infinities, negative zero, or a finite value given by the rational number
it denotes (`fin 0` is positive zero).  Every `float64` is one of these. -/
inductive F64 where
  | nan
  | posInf
  | negInf
  | negZero
  | fin (q : ℚ)
  deriving DecidableEq

namespace F64

/-- Not-a-number test. -/
def isNaN : F64 → Bool
  | nan => true
  | _ => false

/-- Position of a value among the infinities: `-1`, `0` (finite) or `1`. -/
def cls : F64 → Int
  | posInf => 1
  | negInf => -1
  | _ => 0

/-- The rational denoted by a finite value (`0` for the others). -/
def val : F64 → ℚ
  | fin q => q
  | _ => 0

/-- Go `a <= b` on `float64`: false as soon as one side is NaN, and the two
zeros compare equal. -/
def le (a b : F64) : Bool :=
  !a.isNaN && !b.isNaN &&
    (decide (a.cls < b.cls) || (decide (a.cls = b.cls) && decide (a.val ≤ b.val)))

/-- Go `a < b` on `float64`. -/
def lt (a b : F64) : Bool :=
  !a.isNaN && !b.isNaN &&
    (decide (a.cls < b.cls) || (decide (a.cls = b.cls) && decide (a.val < b.val)))

/-- Go `a >= b` on `float64`. -/
def ge (a b : F64) : Bool := le b a

end F64

/-- Two's-complement wrap-around of an integer into the `int64` range. -/
def wrapInt64 (n : Int) : Int := (n + 2 ^ 63) % 2 ^ 64 - 2 ^ 63

/-! ## Library behaviour taken as a parameter -/

/-- What the program uses from outside its own source. -/
structure GoLib where
  /-- Go `strings.ToUpper`. -/
  ToUpper : String → String
  /-- Go `time.Duration.Seconds`, from nanoseconds. -/
  Seconds : Int → F64
  /-- Rendering of a `float64` under the verb `%f`. -/
  verbF : F64 → String
  /-- Rendering of a string under the verb `%q`. -/
  verbQ : String → String
  /-- Result of converting to an integer a `float64` that is NaN, infinite or
  outside the `int64` range (implementation-specific in Go). -/
  convOutOfRange : F64 → Int
  /-- The line logrus writes for a message logged at level fatal. -/
  logFatal : String → String
  /-- What logrus writes for a message logged at level debug: a line, or
  nothing when the configured level is above debug (as it is by default). -/
  logDebug : String → String

/-- Go conversion `int(x)` / `time.Duration(x)` of a `float64`: the fraction
is discarded (truncation toward zero). -/
def toInt64 (lib : GoLib) : F64 → Int
  | F64.negZero => 0
  | F64.fin q =>
      let t : Int := if 0 ≤ q then ⌊q⌋ else ⌈q⌉
      if -(2 ^ 63) ≤ t ∧ t < 2 ^ 63 then t else wrapInt64 (lib.convOutOfRange (F64.fin q))
  | x => wrapInt64 (lib.convOutOfRange x)

/-! ## `fmt.Sprintf` / `fmt.Printf` -/

/-- An operand of a formatting call. -/
inductive Arg where
  | str (s : String)
  | int (n : Int)
  | float (x : F64)

/-- Rendering of one operand under one verb, for the verbs and operand types
the program uses (`%s` and `%q` of a string, `%d` of an `int`, `%f` of a
`float64`).  The program has no other combination; one is rendered as the
marker `%!` followed by the verb. -/
def renderVerb (lib : GoLib) : Char → Arg → String
  | 's', Arg.str s => s
  | 'q', Arg.str s => lib.verbQ s
  | 'd', Arg.int n => toString n
  | 'f', Arg.float x => lib.verbF x
  | v, _ => "%!" ++ String.singleton v

/-- Interpretation of a format string over its operands, left to right: a `%`
followed by a verb consumes the next operand, any other character is copied.
(No format string of the program contains `%%` or more verbs than operands.) -/
def sprintfAux (lib : GoLib) : List Char → List Arg → String
  | [], _ => ""
  | '%' :: v :: rest, a :: args => renderVerb lib v a ++ sprintfAux lib rest args
  | c :: rest, args => String.singleton c ++ sprintfAux lib rest args

/-- Go `fmt.Sprintf`. -/
def Sprintf (lib : GoLib) (format : String) (args : List Arg) : String :=
  sprintfAux lib format.data args

/-! ## The program -/

/-- Severity label of a good result. -/
def S_OK : String := "OK"

/-- Severity label of a warning. -/
def S_WARNING : String := "WARNING"

/-- Severity label of a critical result. -/
def S_CRITICAL : String := "CRITICAL"

/-- Severity label of an undetermined result. -/
def S_UNKNOWN : String := "UNKNOWN"

/-- Exit code of a good result. -/
def E_OK : Int := 0

/-- Exit code of a warning. -/
def E_WARNING : Int := 1

/-- Exit code of a critical result. -/
def E_CRITICAL : Int := 2

/-- Exit code of an undetermined result. -/
def E_UNKNOWN : Int := 3

/-- How the process ends: the text written to standard output and the exit
status. -/
structure Outcome where
  stdout : String
  exitCode : Int
  deriving DecidableEq

/-- Source `nagios_result`: print the verdict line, then `os.Exit(ex_code)`. -/
def nagios_result (lib : GoLib) (ex_code : Int) (status desc path : String)
    (rtime warn crit : F64) : Outcome :=
  { stdout := Sprintf lib "%s: %s, %s, response time: %f|time=%fs;%fs;%fs\n"
      [Arg.str status, Arg.str desc, Arg.str path, Arg.float rtime, Arg.float rtime,
        Arg.float warn, Arg.float crit]
    exitCode := ex_code }

/-- The result a run of `scrape` hands back over the channel `chres`. -/
structure DPResponse where
  StatusVal : String
  Description : String
  /-- A `time.Duration`, in nanoseconds. -/
  RTime : Int

/-- Control flow of code that may call `os.Exit`: either the process has ended
with an outcome, or the code went on with a value. -/
inductive Flow (α : Type) where
  | exit (o : Outcome)
  | ret (a : α)

/-- What the outside world does during one run of `scrape`. -/
structure Net where
  /-- Whether `http.NewRequest` returns an error. -/
  newRequestErr : Bool
  /-- Whether `client.Do` returns an error. -/
  doErr : Bool
  /-- The measured `t_end.Sub(t_start)`, in nanoseconds. -/
  elapsed : Int
  /-- The error of `goquery.NewDocumentFromResponse`, when it returns one. -/
  docErr : Option String
  /-- Value of `doc.Find("status").Attr("value")` (empty when absent). -/
  statusValue : String
  /-- Value of `doc.Find("description").Text()`. -/
  description : String

/-- Source `log.Fatalf` (logrus): the message is logged at level fatal and the
process exits with status 1. -/
def log_Fatalf (lib : GoLib) (format : String) (args : List Arg) : Outcome :=
  { stdout := lib.logFatal (Sprintf lib format args)
    exitCode := 1 }

/-- Source `geturl`: a failure to build the request is reported at once;
otherwise the function returns what `client.Do` returns, of which only the
presence of an error is kept. -/
def geturl (lib : GoLib) (net : Net) (url : String) : Flow Bool :=
  if net.newRequestErr then
    Flow.exit (nagios_result lib E_CRITICAL S_CRITICAL "Unable to create request" url
      (F64.fin 0) (F64.fin 0) (F64.fin 0))
  else
    Flow.ret net.doErr

/-- Source `scrape`: fetch, parse, and send the response over `chres`
(`Flow.ret`), unless one of the failure paths ends the process first. -/
def scrape (lib : GoLib) (net : Net) (url : String) : Flow DPResponse :=
  match geturl lib net url with
  | Flow.exit o => Flow.exit o
  | Flow.ret err =>
    if err then
      Flow.exit (nagios_result lib E_CRITICAL S_CRITICAL "Connection refused" url
        (F64.fin 0) (F64.fin 0) (F64.fin 0))
    else
      match net.docErr with
      | some e => Flow.exit (log_Fatalf lib "Problem loading document, error: %s" [Arg.str e])
      | none => Flow.ret { StatusVal := net.statusValue, Description := net.description,
                           RTime := net.elapsed }

/-- The values `run_check` reads from the command line. -/
structure Config where
  protocol : String
  hostname : String
  port : Int
  urlpath : String
  warning : F64
  critical : F64
  timeout : F64
  checkstr : String

/-- Source `log.Debugf` (logrus): what the call writes to standard output. -/
def log_Debugf (lib : GoLib) (format : String) (args : List Arg) : String :=
  lib.logDebug (Sprintf lib format args)

/-- An outcome reached after `pre` has already been written to standard
output. -/
def Outcome.after (pre : String) (o : Outcome) : Outcome :=
  { stdout := pre ++ o.stdout
    exitCode := o.exitCode }

/-- The local `dpurl` of `run_check`. -/
def dpurl (lib : GoLib) (c : Config) : String :=
  Sprintf lib "%s://%s:%d%s"
    [Arg.str c.protocol, Arg.str c.hostname, Arg.int c.port, Arg.str c.urlpath]

/-- The `if` statement of the case `res := <-chResults` of the `select` in
`run_check`: the verdict on a response. -/
def case_result (lib : GoLib) (c : Config) (res : DPResponse) : Outcome :=
  let path := c.urlpath
  let warn := c.warning
  let crit := c.critical
  if lib.ToUpper res.StatusVal = lib.ToUpper c.checkstr then
    if F64.ge (lib.Seconds res.RTime) warn && F64.lt (lib.Seconds res.RTime) crit then
      let msg := Sprintf lib "Too long response time (>= %ds), (desc: %s)"
        [Arg.int (toInt64 lib warn), Arg.str res.Description]
      nagios_result lib E_WARNING S_WARNING msg path (lib.Seconds res.RTime) warn crit
    else if F64.ge (lib.Seconds res.RTime) crit then
      let msg := Sprintf lib "Too long response time (>= %ds), (desc: %s)"
        [Arg.int (toInt64 lib crit), Arg.str res.Description]
      nagios_result lib E_CRITICAL S_CRITICAL msg path (lib.Seconds res.RTime) warn crit
    else
      nagios_result lib E_OK S_OK res.Description path (lib.Seconds res.RTime) warn crit
  else
    nagios_result lib E_CRITICAL S_CRITICAL res.Description path (lib.Seconds res.RTime) warn crit

/-- Go `time.Second`, in nanoseconds. -/
def Second : Int := 1000000000

/-- The duration handed to `time.After` in `run_check`,
`time.Second * time.Duration(tmout)`, in nanoseconds. -/
def deadline (lib : GoLib) (tmout : F64) : Int :=
  wrapInt64 (Second * toInt64 lib tmout)

/-- The case `<-time.After(...)` of the `select` in `run_check`. -/
def case_timeout (lib : GoLib) (c : Config) : Outcome :=
  { stdout := Sprintf lib "%s: DP %q timed out after %d seconds.\n"
      [Arg.str S_CRITICAL, Arg.str (dpurl lib c), Arg.int (toInt64 lib c.timeout)]
    exitCode := E_CRITICAL }

/-- Which event ends the wait in `run_check`: the pipeline (it sends a result,
or ends the process itself), or the timer.  The third case of the `select`,
`<-chCtrl`, is never the one selected: the signal is sent by the deferred
function of `scrape`, which runs only when `scrape` returns, that is after its
send on `chres` has been received by this same `select`. -/
inductive Selected where
  | pipeline
  | timer
  deriving DecidableEq

/-- What the `log.Debugf` calls at the start of `run_check` write, before
`scrape` is started. -/
def debug_header (lib : GoLib) (c : Config) : String :=
  log_Debugf lib "Protocol     : %s" [Arg.str c.protocol] ++
    log_Debugf lib "Host         : %s" [Arg.str c.hostname] ++
    log_Debugf lib "Port         : %d" [Arg.int c.port] ++
    log_Debugf lib "UPath        : %s" [Arg.str c.urlpath] ++
    log_Debugf lib "Warning      : %f" [Arg.float c.warning] ++
    log_Debugf lib "Critical     : %f" [Arg.float c.critical] ++
    log_Debugf lib "Timeout      : %f" [Arg.float c.timeout] ++
    log_Debugf lib "Check string : %q" [Arg.str c.checkstr] ++
    log_Debugf lib "DP URL: %s" [Arg.str (dpurl lib c)]

/-- What the `log.Debugf` calls at the start of the case `res := <-chResults`
write. -/
def debug_result (lib : GoLib) (res : DPResponse) : String :=
  log_Debugf lib "Status Value:  %s" [Arg.str res.StatusVal] ++
    log_Debugf lib "Description:   %s" [Arg.str res.Description] ++
    log_Debugf lib "Response time: %f" [Arg.float (lib.Seconds res.RTime)]

/-- Source `run_check`, as a function of what the network does and of the event
the `select` picks. -/
def run_check (lib : GoLib) (c : Config) (net : Net) (sel : Selected) : Outcome :=
  Outcome.after (debug_header lib c)
    (match sel with
    | Selected.timer => case_timeout lib c
    | Selected.pipeline =>
      match scrape lib net (dpurl lib c) with
      | Flow.exit o => o
      | Flow.ret res => Outcome.after (debug_result lib res) (case_result lib c res))

/-- The severity label of an outcome: the printed text up to the first colon. -/
def Outcome.label (o : Outcome) : String :=
  String.mk (o.stdout.data.takeWhile (fun ch => ch != ':'))

/-! ## One concrete library behaviour, for evaluating examples -/

/-- Digits of `n`, left-padded with zeros to six places. -/
def pad6 (n : Nat) : String :=
  let d := toString n
  String.mk (List.replicate (6 - d.length) '0') ++ d

/-- Rounding of a non-negative rational to the nearest integer, ties to even. -/
def roundHalfEven (q : ℚ) : Nat :=
  let f := ⌊q⌋.toNat
  let r := q - f
  if r < 1 / 2 then f else if 1 / 2 < r then f + 1 else if f % 2 = 0 then f else f + 1

/-- Six-decimal rendering of a `float64`, as `%f` gives it. -/
def fixed6 : F64 → String
  | F64.nan => "NaN"
  | F64.posInf => "+Inf"
  | F64.negInf => "-Inf"
  | F64.negZero => "-0.000000"
  | F64.fin q =>
      let n := roundHalfEven (|q| * 1000000)
      (if q < 0 then "-" else "") ++ toString (n / 1000000) ++ "." ++ pad6 (n % 1000000)

/-- Double-quoted form of a text in which only the double quote and the
backslash need escaping. -/
def quotePlain (s : String) : String :=
  "\"" ++ String.join (s.data.map fun ch =>
    if ch = '"' ∨ ch = '\\' then "\\" ++ String.singleton ch else String.singleton ch) ++ "\""

/-- A library behaviour that agrees with Go on ASCII letters, on durations of a
whole number of seconds, and on printable text without control characters; the
out-of-range conversion is the one of amd64, and the log level is the default
one, at which debug messages are not written. -/
def plainLib : GoLib :=
  { ToUpper := fun s => String.mk (s.data.map Char.toUpper)
    Seconds := fun d => F64.fin ((d : ℚ) / 1000000000)
    verbF := fixed6
    verbQ := quotePlain
    convOutOfRange := fun _ => -(2 ^ 63)
    logFatal := fun msg => "level=fatal msg=" ++ quotePlain msg ++ "\n"
    logDebug := fun _ => "" }

/-- The same behaviour at log level debug (flag `-d`): every debug message is
written as a line. -/
def debugLib : GoLib :=
  { plainLib with logDebug := fun msg => "level=debug msg=" ++ quotePlain msg ++ "\n" }

/-- The configuration of the examples: defaults of the command line, host
`example.org`, path `/dp`. -/
def sampleConfig : Config :=
  { protocol := "http", hostname := "example.org", port := 80, urlpath := "/dp",
    warning := F64.fin 10, critical := F64.fin 15, timeout := F64.fin 30, checkstr := "Ok" }

/-- A network that answers after `secs` seconds with the given status value
and the description of the sample document. -/
def sampleNet (sval : String) (secs : Int) : Net :=
  { newRequestErr := false, doErr := false, elapsed := secs * 1000000000, docErr := none,
    statusValue := sval, description := "Looking good" }

/-- The response `scrape` sends for `sampleNet sval secs`. -/
def sampleResponse (sval : String) (secs : Int) : DPResponse :=
  { StatusVal := sval, Description := "Looking good", RTime := secs * 1000000000 }

/-- The sample network, except that loading the document fails: the body ends
before the announced length is read. -/
def failingNet : Net :=
  { sampleNet "Ok" 1 with docErr := some "unexpected EOF" }

/-- Whether a value is finite (a zero or a non-zero finite number). -/
def F64.isFinite : F64 → Bool
  | F64.fin _ => true
  | F64.negZero => true
  | _ => false

/-! ## Properties -/

theorem nagios_result_stdout (lib : GoLib) (ex_code : Int) (status desc path : String)
    (rtime warn crit : F64) :
    (nagios_result lib ex_code status desc path rtime warn crit).stdout =
      status ++ ": " ++ desc ++ ", " ++ path ++ ", response time: " ++ lib.verbF rtime ++
        "|time=" ++ lib.verbF rtime ++ "s;" ++ lib.verbF warn ++ "s;" ++ lib.verbF crit ++
        "s\n" := by
  apply String.ext
  simp [nagios_result, Sprintf, sprintfAux, renderVerb, String.singleton]


theorem nagios_result_exitCode (lib : GoLib) (ex_code : Int) (status desc path : String)
    (rtime warn crit : F64) :
    (nagios_result lib ex_code status desc path rtime warn crit).exitCode = ex_code := rfl

/-- Reading up to the first colon returns a colon-free text in front of it. -/
theorem takeWhile_before_colon (l r : List Char) (h : ∀ ch ∈ l, ch ≠ ':') :
    (l ++ ':' :: r).takeWhile (fun ch => ch != ':') = l := by
  induction l with
  | nil => simp
  | cons a t ih =>
    have ha : a ≠ ':' := h a (List.mem_cons_self a t)
    have ht : ∀ ch ∈ t, ch ≠ ':' := fun ch hch => h ch (List.mem_cons_of_mem a hch)
    simp [List.takeWhile_cons, ha, ih ht]

/-- A verdict line carries its status as label, when the status has no colon. -/
theorem nagios_result_label (lib : GoLib) (ex_code : Int) (status desc path : String)
    (rtime warn crit : F64) (h : ∀ ch ∈ status.data, ch ≠ ':') :
    (nagios_result lib ex_code status desc path rtime warn crit).label = status := by
  unfold Outcome.label
  rw [nagios_result_stdout]
  apply String.ext
  simp only [String.data_append]
  simp only [List.append_assoc, List.cons_append, List.nil_append]
  exact takeWhile_before_colon _ _ h

theorem no_colon_OK : ∀ ch ∈ S_OK.data, ch ≠ ':' := by decide

theorem no_colon_WARNING : ∀ ch ∈ S_WARNING.data, ch ≠ ':' := by decide

theorem no_colon_CRITICAL : ∀ ch ∈ S_CRITICAL.data, ch ≠ ':' := by decide

namespace F64

theorem lt_eq_false_of_ge {a b : F64} (h : ge a b = true) : lt a b = false := by
  cases hlt : lt a b with
  | false => rfl
  | true =>
    exfalso
    simp only [ge, le, lt, Bool.and_eq_true, Bool.or_eq_true, decide_eq_true_eq,
      Bool.not_eq_true'] at h hlt
    obtain ⟨_, h2⟩ := h
    obtain ⟨_, h4⟩ := hlt
    rcases h2 with h2 | ⟨h2, h2v⟩ <;> rcases h4 with h4 | ⟨h4, h4v⟩
    · omega
    · omega
    · omega
    · exact absurd h4v (not_lt.mpr h2v)

end F64

/-! ### The branches of the result case -/

theorem case_result_mismatch (lib : GoLib) (c : Config) (res : DPResponse)
    (h : lib.ToUpper res.StatusVal ≠ lib.ToUpper c.checkstr) :
    case_result lib c res =
      nagios_result lib E_CRITICAL S_CRITICAL res.Description c.urlpath
        (lib.Seconds res.RTime) c.warning c.critical := by
  simp [case_result, h]

theorem case_result_warning (lib : GoLib) (c : Config) (res : DPResponse)
    (h : lib.ToUpper res.StatusVal = lib.ToUpper c.checkstr)
    (hw : F64.ge (lib.Seconds res.RTime) c.warning = true)
    (hc : F64.lt (lib.Seconds res.RTime) c.critical = true) :
    case_result lib c res =
      nagios_result lib E_WARNING S_WARNING
        (Sprintf lib "Too long response time (>= %ds), (desc: %s)"
          [Arg.int (toInt64 lib c.warning), Arg.str res.Description])
        c.urlpath (lib.Seconds res.RTime) c.warning c.critical := by
  simp [case_result, h, hw, hc]

theorem case_result_critical (lib : GoLib) (c : Config) (res : DPResponse)
    (h : lib.ToUpper res.StatusVal = lib.ToUpper c.checkstr)
    (hc : F64.ge (lib.Seconds res.RTime) c.critical = true) :
    case_result lib c res =
      nagios_result lib E_CRITICAL S_CRITICAL
        (Sprintf lib "Too long response time (>= %ds), (desc: %s)"
          [Arg.int (toInt64 lib c.critical), Arg.str res.Description])
        c.urlpath (lib.Seconds res.RTime) c.warning c.critical := by
  simp [case_result, h, hc, F64.lt_eq_false_of_ge hc]

theorem case_result_ok (lib : GoLib) (c : Config) (res : DPResponse)
    (h : lib.ToUpper res.StatusVal = lib.ToUpper c.checkstr)
    (hw : (F64.ge (lib.Seconds res.RTime) c.warning &&
      F64.lt (lib.Seconds res.RTime) c.critical) = false)
    (hc : F64.ge (lib.Seconds res.RTime) c.critical = false) :
    case_result lib c res =
      nagios_result lib E_OK S_OK res.Description c.urlpath
        (lib.Seconds res.RTime) c.warning c.critical := by
  simp [case_result, h, hw, hc]

/-- The label and the exit code of the result case, branch by branch. -/
theorem case_result_verdict (lib : GoLib) (c : Config) (res : DPResponse) :
    ((case_result lib c res).label = "CRITICAL" ∧ (case_result lib c res).exitCode = 2 ∧
        (lib.ToUpper res.StatusVal ≠ lib.ToUpper c.checkstr ∨
          F64.ge (lib.Seconds res.RTime) c.critical = true)) ∨
      ((case_result lib c res).label = "WARNING" ∧ (case_result lib c res).exitCode = 1 ∧
        lib.ToUpper res.StatusVal = lib.ToUpper c.checkstr ∧
        F64.ge (lib.Seconds res.RTime) c.warning = true ∧
        F64.lt (lib.Seconds res.RTime) c.critical = true) ∨
      ((case_result lib c res).label = "OK" ∧ (case_result lib c res).exitCode = 0 ∧
        lib.ToUpper res.StatusVal = lib.ToUpper c.checkstr ∧
        (F64.ge (lib.Seconds res.RTime) c.warning &&
          F64.lt (lib.Seconds res.RTime) c.critical) = false ∧
        F64.ge (lib.Seconds res.RTime) c.critical = false) := by
  by_cases h : lib.ToUpper res.StatusVal = lib.ToUpper c.checkstr
  · cases hc : F64.ge (lib.Seconds res.RTime) c.critical with
    | true =>
      left
      rw [case_result_critical lib c res h hc]
      exact ⟨nagios_result_label _ _ _ _ _ _ _ _ no_colon_CRITICAL, rfl, Or.inr rfl⟩
    | false =>
      cases hw : (F64.ge (lib.Seconds res.RTime) c.warning &&
          F64.lt (lib.Seconds res.RTime) c.critical) with
      | false =>
        right; right
        rw [case_result_ok lib c res h hw hc]
        exact ⟨nagios_result_label _ _ _ _ _ _ _ _ no_colon_OK, rfl, h, rfl, rfl⟩
      | true =>
        right; left
        rw [Bool.and_eq_true] at hw
        rw [case_result_warning lib c res h hw.1 hw.2]
        exact ⟨nagios_result_label _ _ _ _ _ _ _ _ no_colon_WARNING, rfl, h, hw.1, hw.2⟩
  · left
    rw [case_result_mismatch lib c res h]
    exact ⟨nagios_result_label _ _ _ _ _ _ _ _ no_colon_CRITICAL, rfl, Or.inl h⟩

namespace F64

theorem ge_eq_false_of_lt {a b : F64} (h : lt a b = true) : ge a b = false := by
  cases hge : ge a b with
  | false => rfl
  | true => rw [lt_eq_false_of_ge hge] at h; exact absurd h (by decide)

end F64

/-! ### Verdicts of the result case -/

/-- Claim C1. In the result case of `run_check`, a status value whose upper-cased
form differs from the upper-cased check string gives the verdict CRITICAL with
exit code 2, reported with the parsed description as its message, whatever the
response time and the two thresholds are. -/
theorem status_mismatch_is_critical (lib : GoLib) (c : Config) (res : DPResponse)
    (h : lib.ToUpper res.StatusVal ≠ lib.ToUpper c.checkstr) :
    (case_result lib c res).label = "CRITICAL" ∧
      (case_result lib c res).exitCode = 2 ∧
      case_result lib c res =
        nagios_result lib 2 "CRITICAL" res.Description c.urlpath
          (lib.Seconds res.RTime) c.warning c.critical ∧
      (case_result lib c res).stdout =
        "CRITICAL: " ++ res.Description ++ ", " ++ c.urlpath ++ ", response time: " ++
          lib.verbF (lib.Seconds res.RTime) ++ "|time=" ++ lib.verbF (lib.Seconds res.RTime) ++
          "s;" ++ lib.verbF c.warning ++ "s;" ++ lib.verbF c.critical ++ "s\n" := by
  rw [case_result_mismatch lib c res h]
  refine ⟨nagios_result_label _ _ _ _ _ _ _ _ no_colon_CRITICAL, rfl, rfl, ?_⟩
  rw [nagios_result_stdout]
  rfl

/-- Status `Fail` against the check string `Ok`, answered in one second. -/
theorem status_mismatch_is_critical_witness :
    plainLib.ToUpper "Fail" ≠ plainLib.ToUpper "Ok" ∧
      (case_result plainLib sampleConfig (sampleResponse "Fail" 1)).label = "CRITICAL" ∧
      (case_result plainLib sampleConfig (sampleResponse "Fail" 1)).exitCode = 2 :=
  have h := status_mismatch_is_critical plainLib sampleConfig (sampleResponse "Fail" 1)
    (by decide)
  ⟨by decide, h.1, h.2.1⟩

/-- Claim C2, as stated, fails: with warning 10 and critical 3, a matching
status answered in 5 seconds is below the warning threshold, and the verdict is
CRITICAL with exit code 2, not OK. -/
theorem ok_below_warning_counterexample :
    plainLib.ToUpper "Ok" = plainLib.ToUpper "Ok" ∧
      F64.lt (plainLib.Seconds (sampleResponse "Ok" 5).RTime) (F64.fin 10) = true ∧
      (case_result plainLib { sampleConfig with warning := F64.fin 10, critical := F64.fin 3 }
        (sampleResponse "Ok" 5)).exitCode = 2 ∧
      (case_result plainLib { sampleConfig with warning := F64.fin 10, critical := F64.fin 3 }
        (sampleResponse "Ok" 5)).label = "CRITICAL" ∧
      ¬ ((case_result plainLib
            { sampleConfig with warning := F64.fin 10, critical := F64.fin 3 }
            (sampleResponse "Ok" 5)).label = "OK" ∧
          (case_result plainLib
            { sampleConfig with warning := F64.fin 10, critical := F64.fin 3 }
            (sampleResponse "Ok" 5)).exitCode = 0) := by
  have hc : F64.ge (plainLib.Seconds (sampleResponse "Ok" 5).RTime) (F64.fin 3) = true := by
    simp [plainLib, sampleResponse, F64.ge, F64.le, F64.isNaN, F64.cls, F64.val]
    norm_num
  have e := case_result_critical plainLib
    { sampleConfig with warning := F64.fin 10, critical := F64.fin 3 }
    (sampleResponse "Ok" 5) rfl hc
  refine ⟨rfl, ?_, ?_, ?_, ?_⟩
  · simp [plainLib, sampleResponse, F64.lt, F64.isNaN, F64.cls, F64.val]
    norm_num
  · rw [e]; rfl
  · rw [e]; exact nagios_result_label _ _ _ _ _ _ _ _ no_colon_CRITICAL
  · rw [e]
    intro h
    exact absurd h.2 (by decide)

/-- Claim C2, amended. In the result case of `run_check`, a status value that
matches the check string (upper-cased forms equal), with a response time
strictly below the warning threshold and not at or above the critical
threshold, gives the verdict OK with exit code 0 and the parsed description
as message. -/
theorem ok_below_both_thresholds (lib : GoLib) (c : Config) (res : DPResponse)
    (h : lib.ToUpper res.StatusVal = lib.ToUpper c.checkstr)
    (hw : F64.lt (lib.Seconds res.RTime) c.warning = true)
    (hc : F64.ge (lib.Seconds res.RTime) c.critical = false) :
    (case_result lib c res).label = "OK" ∧
      (case_result lib c res).exitCode = 0 ∧
      case_result lib c res =
        nagios_result lib 0 "OK" res.Description c.urlpath
          (lib.Seconds res.RTime) c.warning c.critical := by
  have hw2 : (F64.ge (lib.Seconds res.RTime) c.warning &&
      F64.lt (lib.Seconds res.RTime) c.critical) = false := by
    rw [F64.ge_eq_false_of_lt hw]; rfl
  rw [case_result_ok lib c res h hw2 hc]
  exact ⟨nagios_result_label _ _ _ _ _ _ _ _ no_colon_OK, rfl, rfl⟩

/-- Status `Ok`, check string `Ok`, response time 1.0 s, warning 10,
critical 15: OK, exit code 0. -/
theorem ok_below_both_thresholds_witness :
    (case_result plainLib sampleConfig (sampleResponse "Ok" 1)).label = "OK" ∧
      (case_result plainLib sampleConfig (sampleResponse "Ok" 1)).exitCode = 0 :=
  have h := ok_below_both_thresholds plainLib sampleConfig (sampleResponse "Ok" 1) rfl
    (by simp [plainLib, sampleConfig, sampleResponse, F64.lt, F64.isNaN, F64.cls, F64.val])
    (by simp [plainLib, sampleConfig, sampleResponse, F64.ge, F64.le, F64.isNaN, F64.cls,
          F64.val])
  ⟨h.1, h.2.1⟩

/-- Claim C3. In the result case of `run_check`, with a matching status and a
response time at or above the critical threshold, the verdict is CRITICAL with
exit code 2, for every warning threshold (no order between the two thresholds
is assumed); such a response is never reported as WARNING. -/
theorem critical_at_or_above_crit (lib : GoLib) (c : Config) (res : DPResponse)
    (h : lib.ToUpper res.StatusVal = lib.ToUpper c.checkstr)
    (hc : F64.ge (lib.Seconds res.RTime) c.critical = true) :
    (case_result lib c res).label = "CRITICAL" ∧
      (case_result lib c res).exitCode = 2 ∧
      (case_result lib c res).label ≠ "WARNING" ∧
      (case_result lib c res).exitCode ≠ 1 := by
  rw [case_result_critical lib c res h hc]
  have hl := nagios_result_label lib E_CRITICAL S_CRITICAL
    (Sprintf lib "Too long response time (>= %ds), (desc: %s)"
      [Arg.int (toInt64 lib c.critical), Arg.str res.Description])
    c.urlpath (lib.Seconds res.RTime) c.warning c.critical no_colon_CRITICAL
  refine ⟨hl, rfl, ?_, ?_⟩
  · rw [hl]
    decide
  · show E_CRITICAL ≠ 1
    decide

/-- Response time 20.0 s, warning 10, critical 15: CRITICAL, exit code 2. -/
theorem critical_at_or_above_crit_witness :
    (case_result plainLib sampleConfig (sampleResponse "Ok" 20)).label = "CRITICAL" ∧
      (case_result plainLib sampleConfig (sampleResponse "Ok" 20)).exitCode = 2 :=
  have h := critical_at_or_above_crit plainLib sampleConfig (sampleResponse "Ok" 20) rfl
    (by
      simp [plainLib, sampleConfig, sampleResponse, F64.ge, F64.le, F64.isNaN, F64.cls,
        F64.val]
      norm_num)
  ⟨h.1, h.2.1⟩

/-- Claim C4. In the result case of `run_check`, the verdict is WARNING with
exit code 1 when the status matches and the response time is at or above the
warning threshold and strictly below the critical one, and in no other case:
the label WARNING and the exit code 1 each occur exactly under that
condition. -/
theorem warning_iff_between_thresholds (lib : GoLib) (c : Config) (res : DPResponse) :
    ((case_result lib c res).label = "WARNING" ↔
        (lib.ToUpper res.StatusVal = lib.ToUpper c.checkstr ∧
          F64.ge (lib.Seconds res.RTime) c.warning = true ∧
          F64.lt (lib.Seconds res.RTime) c.critical = true)) ∧
      ((case_result lib c res).exitCode = 1 ↔
        (lib.ToUpper res.StatusVal = lib.ToUpper c.checkstr ∧
          F64.ge (lib.Seconds res.RTime) c.warning = true ∧
          F64.lt (lib.Seconds res.RTime) c.critical = true)) := by
  rcases case_result_verdict lib c res with ⟨hl, he, hcond⟩ | ⟨hl, he, hcond⟩ | ⟨hl, he, hcond⟩
  · have hn : ¬ (lib.ToUpper res.StatusVal = lib.ToUpper c.checkstr ∧
          F64.ge (lib.Seconds res.RTime) c.warning = true ∧
          F64.lt (lib.Seconds res.RTime) c.critical = true) := by
      rintro ⟨h1, _, h3⟩
      rcases hcond with hm | hg
      · exact hm h1
      · rw [F64.lt_eq_false_of_ge hg] at h3
        exact absurd h3 (by decide)
    rw [hl, he]
    exact ⟨⟨fun h => absurd h (by decide), fun h => absurd h hn⟩,
      ⟨fun h => absurd h (by decide), fun h => absurd h hn⟩⟩
  · rw [hl, he]
    exact ⟨⟨fun _ => hcond, fun _ => rfl⟩, ⟨fun _ => hcond, fun _ => rfl⟩⟩
  · have hn : ¬ (lib.ToUpper res.StatusVal = lib.ToUpper c.checkstr ∧
          F64.ge (lib.Seconds res.RTime) c.warning = true ∧
          F64.lt (lib.Seconds res.RTime) c.critical = true) := by
      rintro ⟨_, h2, h3⟩
      rw [h2, h3] at hcond
      exact absurd hcond.2.1 (by decide)
    rw [hl, he]
    exact ⟨⟨fun h => absurd h (by decide), fun h => absurd h hn⟩,
      ⟨fun h => absurd h (by decide), fun h => absurd h hn⟩⟩

/-- Response time 12.0 s, warning 10, critical 15: WARNING, exit code 1. -/
theorem warning_iff_between_thresholds_witness :
    (case_result plainLib sampleConfig (sampleResponse "Ok" 12)).label = "WARNING" ∧
      (case_result plainLib sampleConfig (sampleResponse "Ok" 12)).exitCode = 1 :=
  have hcond : plainLib.ToUpper (sampleResponse "Ok" 12).StatusVal =
        plainLib.ToUpper sampleConfig.checkstr ∧
      F64.ge (plainLib.Seconds (sampleResponse "Ok" 12).RTime) sampleConfig.warning = true ∧
      F64.lt (plainLib.Seconds (sampleResponse "Ok" 12).RTime) sampleConfig.critical = true :=
    ⟨rfl,
      by
        simp [plainLib, sampleConfig, sampleResponse, F64.ge, F64.le, F64.isNaN, F64.cls,
          F64.val]
        norm_num,
      by
        simp [plainLib, sampleConfig, sampleResponse, F64.lt, F64.isNaN, F64.cls, F64.val]
        norm_num⟩
  have h := warning_iff_between_thresholds plainLib sampleConfig (sampleResponse "Ok" 12)
  ⟨h.1.mpr hcond, h.2.mpr hcond⟩

/-! ### The other ways the run ends -/

theorem dpurl_eq (lib : GoLib) (c : Config) :
    dpurl lib c =
      c.protocol ++ "://" ++ c.hostname ++ ":" ++ toString c.port ++ c.urlpath := by
  apply String.ext
  simp [dpurl, Sprintf, sprintfAux, renderVerb, String.singleton]

theorem case_timeout_stdout (lib : GoLib) (c : Config) :
    (case_timeout lib c).stdout =
      "CRITICAL: DP " ++ lib.verbQ (dpurl lib c) ++ " timed out after " ++
        toString (toInt64 lib c.timeout) ++ " seconds.\n" := by
  apply String.ext
  simp [case_timeout, Sprintf, sprintfAux, renderVerb, String.singleton, S_CRITICAL]

theorem case_timeout_label (lib : GoLib) (c : Config) :
    (case_timeout lib c).label = "CRITICAL" := by
  unfold Outcome.label
  rw [case_timeout_stdout]
  apply String.ext
  simp only [String.data_append]
  simp only [List.append_assoc, List.cons_append, List.nil_append]
  exact takeWhile_before_colon _ _ no_colon_CRITICAL

theorem empty_append (s : String) : "" ++ s = s := by
  apply String.ext
  simp [String.data_append]

theorem Outcome.after_empty (o : Outcome) : Outcome.after "" o = o := by
  cases o
  simp [Outcome.after, empty_append]

theorem Outcome.after_after (a b : String) (o : Outcome) :
    Outcome.after a (Outcome.after b o) = Outcome.after (a ++ b) o := by
  simp [Outcome.after, String.append_assoc]

/-- At a log level above debug the start of `run_check` writes nothing. -/
theorem debug_header_quiet (lib : GoLib) (c : Config) (hq : ∀ msg, lib.logDebug msg = "") :
    debug_header lib c = "" := by
  simp only [debug_header, log_Debugf, hq]
  rfl

/-- At a log level above debug the result case writes nothing before the
verdict. -/
theorem debug_result_quiet (lib : GoLib) (res : DPResponse)
    (hq : ∀ msg, lib.logDebug msg = "") : debug_result lib res = "" := by
  simp only [debug_result, log_Debugf, hq]
  rfl

theorem run_check_timer (lib : GoLib) (c : Config) (net : Net) :
    run_check lib c net Selected.timer =
      Outcome.after (debug_header lib c) (case_timeout lib c) := rfl

theorem run_check_newRequestErr (lib : GoLib) (c : Config) (net : Net)
    (h : net.newRequestErr = true) :
    run_check lib c net Selected.pipeline =
      Outcome.after (debug_header lib c)
        (nagios_result lib E_CRITICAL S_CRITICAL "Unable to create request" (dpurl lib c)
          (F64.fin 0) (F64.fin 0) (F64.fin 0)) := by
  simp [run_check, scrape, geturl, h]

theorem run_check_doErr (lib : GoLib) (c : Config) (net : Net)
    (h : net.newRequestErr = false) (hd : net.doErr = true) :
    run_check lib c net Selected.pipeline =
      Outcome.after (debug_header lib c)
        (nagios_result lib E_CRITICAL S_CRITICAL "Connection refused" (dpurl lib c)
          (F64.fin 0) (F64.fin 0) (F64.fin 0)) := by
  simp [run_check, scrape, geturl, h, hd]

theorem run_check_docErr (lib : GoLib) (c : Config) (net : Net) (e : String)
    (h : net.newRequestErr = false) (hd : net.doErr = false) (hp : net.docErr = some e) :
    run_check lib c net Selected.pipeline =
      Outcome.after (debug_header lib c)
        (log_Fatalf lib "Problem loading document, error: %s" [Arg.str e]) := by
  simp [run_check, scrape, geturl, h, hd, hp]

theorem run_check_result (lib : GoLib) (c : Config) (net : Net)
    (h : net.newRequestErr = false) (hd : net.doErr = false) (hp : net.docErr = none) :
    run_check lib c net Selected.pipeline =
      Outcome.after (debug_header lib c)
        (Outcome.after
          (debug_result lib
            { StatusVal := net.statusValue, Description := net.description,
              RTime := net.elapsed })
          (case_result lib c
            { StatusVal := net.statusValue, Description := net.description,
              RTime := net.elapsed })) := by
  simp [run_check, scrape, geturl, h, hd, hp]

theorem roundHalfEven_natCast (n : Nat) : roundHalfEven (n : ℚ) = n := by
  simp [roundHalfEven]

theorem fixed6_ten : fixed6 (F64.fin 10) = "10.000000" := by
  have h : |(10 : ℚ)| * 1000000 = ((10000000 : Nat) : ℚ) := by
    rw [abs_of_pos (by norm_num)]
    norm_num
  have h2 : ¬ ((10 : ℚ) < 0) := by norm_num
  simp only [fixed6, h, roundHalfEven_natCast, h2, if_false]
  decide

theorem fixed6_fifteen : fixed6 (F64.fin 15) = "15.000000" := by
  have h : |(15 : ℚ)| * 1000000 = ((15000000 : Nat) : ℚ) := by
    rw [abs_of_pos (by norm_num)]
    norm_num
  have h2 : ¬ ((15 : ℚ) < 0) := by norm_num
  simp only [fixed6, h, roundHalfEven_natCast, h2, if_false]
  decide

theorem fixed6_thirty : fixed6 (F64.fin 30) = "30.000000" := by
  have h : |(30 : ℚ)| * 1000000 = ((30000000 : Nat) : ℚ) := by
    rw [abs_of_pos (by norm_num)]
    norm_num
  have h2 : ¬ ((30 : ℚ) < 0) := by norm_num
  simp only [fixed6, h, roundHalfEven_natCast, h2, if_false]
  decide

theorem fixed6_thirty_and_a_half : fixed6 (F64.fin (61 / 2)) = "30.500000" := by
  have h : |(61 / 2 : ℚ)| * 1000000 = ((30500000 : Nat) : ℚ) := by
    rw [abs_of_pos (by norm_num)]
    norm_num
  have h2 : ¬ ((61 / 2 : ℚ) < 0) := by norm_num
  simp only [fixed6, h, roundHalfEven_natCast, h2, if_false]
  decide

theorem log_Debugf_float (pre : String) (x : F64)
    (h : ∀ ch ∈ pre.data, ch ≠ '%') :
    log_Debugf debugLib (pre ++ "%f") [Arg.float x] =
      "level=debug msg=" ++ quotePlain (pre ++ fixed6 x) ++ "\n" := by
  have e : ∀ l : List Char, (∀ ch ∈ l, ch ≠ '%') →
      sprintfAux debugLib (l ++ ['%', 'f']) [Arg.float x] = String.mk l ++ fixed6 x := by
    intro l
    induction l with
    | nil =>
      intro _
      apply String.ext
      simp [sprintfAux, renderVerb, debugLib, plainLib]
    | cons a t ih =>
      intro hl
      have ha : a ≠ '%' := hl a (List.mem_cons_self a t)
      have ht : ∀ ch ∈ t, ch ≠ '%' := fun ch hch => hl ch (List.mem_cons_of_mem a hch)
      have step : sprintfAux debugLib (a :: (t ++ ['%', 'f'])) [Arg.float x] =
          String.singleton a ++ sprintfAux debugLib (t ++ ['%', 'f']) [Arg.float x] := by
        rw [sprintfAux]
        intro v rest b args hc
        simp only [List.cons.injEq] at hc
        exact absurd hc ha
      rw [List.cons_append, step, ih ht]
      apply String.ext
      simp [String.singleton]
  have e2 : Sprintf debugLib (pre ++ "%f") [Arg.float x] = pre ++ fixed6 x := by
    unfold Sprintf
    rw [String.data_append]
    exact e pre.data h
  unfold log_Debugf
  rw [e2]
  rfl

/-- The debug lines of the sample configuration with timeout `t`. -/
theorem debug_header_sample (t : F64) :
    debug_header debugLib { sampleConfig with timeout := t } =
      "level=debug msg=\"Protocol     : http\"\n" ++
        "level=debug msg=\"Host         : example.org\"\n" ++
        "level=debug msg=\"Port         : 80\"\n" ++
        "level=debug msg=\"UPath        : /dp\"\n" ++
        "level=debug msg=\"Warning      : 10.000000\"\n" ++
        "level=debug msg=\"Critical     : 15.000000\"\n" ++
        ("level=debug msg=" ++ quotePlain ("Timeout      : " ++ fixed6 t) ++ "\n") ++
        "level=debug msg=\"Check string : \\\"Ok\\\"\"\n" ++
        "level=debug msg=\"DP URL: http://example.org:80/dp\"\n" := by
  have hw : log_Debugf debugLib "Warning      : %f" [Arg.float (F64.fin 10)] =
      "level=debug msg=\"Warning      : 10.000000\"\n" := by
    rw [show ("Warning      : %f" : String) = "Warning      : " ++ "%f" from by decide,
      log_Debugf_float _ _ (by decide), fixed6_ten]
    decide
  have hc : log_Debugf debugLib "Critical     : %f" [Arg.float (F64.fin 15)] =
      "level=debug msg=\"Critical     : 15.000000\"\n" := by
    rw [show ("Critical     : %f" : String) = "Critical     : " ++ "%f" from by decide,
      log_Debugf_float _ _ (by decide), fixed6_fifteen]
    decide
  have ht : log_Debugf debugLib "Timeout      : %f" [Arg.float t] =
      "level=debug msg=" ++ quotePlain ("Timeout      : " ++ fixed6 t) ++ "\n" := by
    rw [show ("Timeout      : %f" : String) = "Timeout      : " ++ "%f" from by decide,
      log_Debugf_float _ _ (by decide)]
  have h1 : log_Debugf debugLib "Protocol     : %s" [Arg.str "http"] =
      "level=debug msg=\"Protocol     : http\"\n" := by decide
  have h2 : log_Debugf debugLib "Host         : %s" [Arg.str "example.org"] =
      "level=debug msg=\"Host         : example.org\"\n" := by decide
  have h3 : log_Debugf debugLib "Port         : %d" [Arg.int 80] =
      "level=debug msg=\"Port         : 80\"\n" := by decide
  have h4 : log_Debugf debugLib "UPath        : %s" [Arg.str "/dp"] =
      "level=debug msg=\"UPath        : /dp\"\n" := by decide
  have h8 : log_Debugf debugLib "Check string : %q" [Arg.str "Ok"] =
      "level=debug msg=\"Check string : \\\"Ok\\\"\"\n" := by decide
  have h9 : log_Debugf debugLib "DP URL: %s"
        [Arg.str (dpurl debugLib { sampleConfig with timeout := t })] =
      "level=debug msg=\"DP URL: http://example.org:80/dp\"\n" := by
    have hu : dpurl debugLib { sampleConfig with timeout := t } =
        dpurl debugLib sampleConfig := rfl
    rw [hu]
    decide
  show log_Debugf debugLib "Protocol     : %s" [Arg.str "http"] ++
    log_Debugf debugLib "Host         : %s" [Arg.str "example.org"] ++
    log_Debugf debugLib "Port         : %d" [Arg.int 80] ++
    log_Debugf debugLib "UPath        : %s" [Arg.str "/dp"] ++
    log_Debugf debugLib "Warning      : %f" [Arg.float (F64.fin 10)] ++
    log_Debugf debugLib "Critical     : %f" [Arg.float (F64.fin 15)] ++
    log_Debugf debugLib "Timeout      : %f" [Arg.float t] ++
    log_Debugf debugLib "Check string : %q" [Arg.str "Ok"] ++
    log_Debugf debugLib "DP URL: %s"
      [Arg.str (dpurl debugLib { sampleConfig with timeout := t })] = _
  rw [hw, hc, ht, h1, h2, h3, h4, h8, h9]

/-- On the paths that report a verdict, the run is the debug lines followed by
a verdict whose label and exit code are one of the fixed pairs. -/
theorem run_check_report (lib : GoLib) (c : Config) (net : Net) (sel : Selected)
    (h : sel = Selected.timer ∨ net.newRequestErr = true ∨ net.doErr = true ∨
      net.docErr = none) :
    ∃ (v : Outcome) (pre : String),
      (v.label, v.exitCode) ∈
        [(S_OK, E_OK), (S_WARNING, E_WARNING), (S_CRITICAL, E_CRITICAL),
          (S_UNKNOWN, E_UNKNOWN)] ∧
      (pre = debug_header lib c ∨
        ∃ res : DPResponse, pre = debug_header lib c ++ debug_result lib res) ∧
      run_check lib c net sel = Outcome.after pre v := by
  have crit : ∀ o : Outcome, o.label = "CRITICAL" → o.exitCode = 2 →
      (o.label, o.exitCode) ∈ [(S_OK, E_OK), (S_WARNING, E_WARNING), (S_CRITICAL, E_CRITICAL),
        (S_UNKNOWN, E_UNKNOWN)] := by
    intro o hl he
    rw [hl, he]
    simp [S_CRITICAL, E_CRITICAL]
  cases sel with
  | timer =>
    exact ⟨_, _, crit _ (case_timeout_label lib c) rfl, Or.inl rfl, run_check_timer lib c net⟩
  | pipeline =>
    cases h1 : net.newRequestErr with
    | true =>
      exact ⟨_, _, crit _ (nagios_result_label _ _ _ _ _ _ _ _ no_colon_CRITICAL) rfl,
        Or.inl rfl, run_check_newRequestErr lib c net h1⟩
    | false =>
      cases h2 : net.doErr with
      | true =>
        exact ⟨_, _, crit _ (nagios_result_label _ _ _ _ _ _ _ _ no_colon_CRITICAL) rfl,
          Or.inl rfl, run_check_doErr lib c net h1 h2⟩
      | false =>
        have h3 : net.docErr = none := by
          rcases h with h | h | h | h
          · exact absurd h (by decide)
          · rw [h1] at h; exact absurd h (by decide)
          · rw [h2] at h; exact absurd h (by decide)
          · exact h
        have hv : ((case_result lib c
              { StatusVal := net.statusValue, Description := net.description,
                RTime := net.elapsed }).label,
            (case_result lib c
              { StatusVal := net.statusValue, Description := net.description,
                RTime := net.elapsed }).exitCode) ∈
            [(S_OK, E_OK), (S_WARNING, E_WARNING), (S_CRITICAL, E_CRITICAL),
              (S_UNKNOWN, E_UNKNOWN)] := by
          rcases case_result_verdict lib c
              { StatusVal := net.statusValue, Description := net.description,
                RTime := net.elapsed } with
            ⟨hl, he, _⟩ | ⟨hl, he, _⟩ | ⟨hl, he, _⟩
          · exact crit _ hl he
          · rw [hl, he]; simp [S_WARNING, E_WARNING]
          · rw [hl, he]; simp [S_OK, E_OK]
        refine ⟨_, debug_header lib c ++ debug_result lib
          { StatusVal := net.statusValue, Description := net.description,
            RTime := net.elapsed }, hv, Or.inr ⟨_, rfl⟩, ?_⟩
        rw [run_check_result lib c net h1 h2 h3, Outcome.after_after]

/-- Claim C5. On every path of `run_check` that reports a verdict (the timer
case, a failure to build the request, a failure to connect, and the four
branches of the result case) the output is the debug lines written so far (none
unless the log level is debug) followed by a verdict whose printed severity
label and exit code form one of the pairs (OK, 0), (WARNING, 1),
(CRITICAL, 2), (UNKNOWN, 3); the exit code of the run is the one of that
verdict.  When no debug line is written, the label is the beginning of the
output itself. -/
theorem label_paired_with_exit_code (lib : GoLib) (c : Config) (net : Net) (sel : Selected)
    (h : sel = Selected.timer ∨ net.newRequestErr = true ∨ net.doErr = true ∨
      net.docErr = none) :
    (∃ (v : Outcome) (pre : String),
        (v.label, v.exitCode) ∈
          [(S_OK, E_OK), (S_WARNING, E_WARNING), (S_CRITICAL, E_CRITICAL),
            (S_UNKNOWN, E_UNKNOWN)] ∧
        (pre = debug_header lib c ∨
          ∃ res : DPResponse, pre = debug_header lib c ++ debug_result lib res) ∧
        (run_check lib c net sel).stdout = pre ++ v.stdout ∧
        (run_check lib c net sel).exitCode = v.exitCode) ∧
      ((∀ msg, lib.logDebug msg = "") →
        ((run_check lib c net sel).label, (run_check lib c net sel).exitCode) ∈
          [(S_OK, E_OK), (S_WARNING, E_WARNING), (S_CRITICAL, E_CRITICAL),
            (S_UNKNOWN, E_UNKNOWN)]) := by
  obtain ⟨v, pre, hv, hpre, hrun⟩ := run_check_report lib c net sel h
  refine ⟨⟨v, pre, hv, hpre, by rw [hrun]; rfl, by rw [hrun]; rfl⟩, ?_⟩
  intro hq
  have he : pre = "" := by
    rcases hpre with hp | ⟨res, hp⟩
    · rw [hp, debug_header_quiet lib c hq]
    · rw [hp, debug_header_quiet lib c hq, debug_result_quiet lib res hq]
      rfl
  rw [hrun, he, Outcome.after_empty]
  exact hv

/-- The sample run answered in 12 seconds, at the default log level, reports
(WARNING, 1). -/
theorem label_paired_with_exit_code_witness :
    ((run_check plainLib sampleConfig (sampleNet "Ok" 12) Selected.pipeline).label,
        (run_check plainLib sampleConfig (sampleNet "Ok" 12) Selected.pipeline).exitCode) ∈
      [(S_OK, E_OK), (S_WARNING, E_WARNING), (S_CRITICAL, E_CRITICAL),
        (S_UNKNOWN, E_UNKNOWN)] :=
  (label_paired_with_exit_code plainLib sampleConfig (sampleNet "Ok" 12) Selected.pipeline
    (Or.inr (Or.inr (Or.inr rfl)))).2 (fun _ => rfl)

/-- Claim C6, as stated, fails: at log level debug (flag `-d`) the timer case
does not leave the timeout line alone on the output; the nine debug lines
written at the start of `run_check` come before it. -/
theorem timeout_debug_counterexample :
    "CRITICAL: DP " ++ debugLib.verbQ (dpurl debugLib sampleConfig) ++ " timed out after " ++
          toString (toInt64 debugLib sampleConfig.timeout) ++ " seconds.\n" =
        "CRITICAL: DP \"http://example.org:80/dp\" timed out after 30 seconds.\n" ∧
      (run_check debugLib sampleConfig (sampleNet "Ok" 1) Selected.timer).stdout =
        "level=debug msg=\"Protocol     : http\"\n" ++
          "level=debug msg=\"Host         : example.org\"\n" ++
          "level=debug msg=\"Port         : 80\"\n" ++
          "level=debug msg=\"UPath        : /dp\"\n" ++
          "level=debug msg=\"Warning      : 10.000000\"\n" ++
          "level=debug msg=\"Critical     : 15.000000\"\n" ++
          "level=debug msg=\"Timeout      : 30.000000\"\n" ++
          "level=debug msg=\"Check string : \\\"Ok\\\"\"\n" ++
          "level=debug msg=\"DP URL: http://example.org:80/dp\"\n" ++
          "CRITICAL: DP \"http://example.org:80/dp\" timed out after 30 seconds.\n" ∧
      (run_check debugLib sampleConfig (sampleNet "Ok" 1) Selected.timer).stdout ≠
        "CRITICAL: DP \"http://example.org:80/dp\" timed out after 30 seconds.\n" ∧
      (run_check debugLib sampleConfig (sampleNet "Ok" 1) Selected.timer).exitCode = 2 := by
  have h30 : toInt64 debugLib sampleConfig.timeout = 30 := by
    simp [toInt64, sampleConfig]
  have hline : (case_timeout debugLib sampleConfig).stdout =
      "CRITICAL: DP \"http://example.org:80/dp\" timed out after 30 seconds.\n" := by
    rw [case_timeout_stdout, h30]
    decide
  have hcfg : ({ sampleConfig with timeout := F64.fin 30 } : Config) = sampleConfig := rfl
  have htl : "level=debug msg=" ++ quotePlain ("Timeout      : " ++ "30.000000") ++ "\n" =
      "level=debug msg=\"Timeout      : 30.000000\"\n" := by decide
  have hhead := debug_header_sample (F64.fin 30)
  rw [fixed6_thirty, hcfg, htl] at hhead
  have hrun : (run_check debugLib sampleConfig (sampleNet "Ok" 1) Selected.timer).stdout =
      debug_header debugLib sampleConfig ++ (case_timeout debugLib sampleConfig).stdout := rfl
  have hfull : (run_check debugLib sampleConfig (sampleNet "Ok" 1) Selected.timer).stdout =
      "level=debug msg=\"Protocol     : http\"\n" ++
        "level=debug msg=\"Host         : example.org\"\n" ++
        "level=debug msg=\"Port         : 80\"\n" ++
        "level=debug msg=\"UPath        : /dp\"\n" ++
        "level=debug msg=\"Warning      : 10.000000\"\n" ++
        "level=debug msg=\"Critical     : 15.000000\"\n" ++
        "level=debug msg=\"Timeout      : 30.000000\"\n" ++
        "level=debug msg=\"Check string : \\\"Ok\\\"\"\n" ++
        "level=debug msg=\"DP URL: http://example.org:80/dp\"\n" ++
        "CRITICAL: DP \"http://example.org:80/dp\" timed out after 30 seconds.\n" := by
    rw [hrun, hhead, hline]
  refine ⟨?_, hfull, ?_, rfl⟩
  · rw [h30]
    decide
  · rw [hfull]
    set_option maxRecDepth 100000 in decide

/-- Claim C6, amended. When the timer is the event selected in `run_check`, the
output is the debug lines written at the start of `run_check` (none unless the
log level is debug) followed by exactly the line
`CRITICAL: DP <quoted url> timed out after <n> seconds.`, with the built URL
under the verb `%q` and `n` the configured timeout converted to an integer, and
the exit code is 2, whatever the pipeline is doing; when no debug line is
written, the output is exactly that single line. -/
theorem timeout_outcome (lib : GoLib) (c : Config) (net : Net) :
    run_check lib c net Selected.timer =
        { stdout := debug_header lib c ++
            ("CRITICAL: DP " ++ lib.verbQ (dpurl lib c) ++ " timed out after " ++
              toString (toInt64 lib c.timeout) ++ " seconds.\n")
          exitCode := 2 } ∧
      ((∀ msg, lib.logDebug msg = "") →
        run_check lib c net Selected.timer =
          { stdout := "CRITICAL: DP " ++ lib.verbQ (dpurl lib c) ++ " timed out after " ++
              toString (toInt64 lib c.timeout) ++ " seconds.\n"
            exitCode := 2 }) := by
  have e : case_timeout lib c =
      { stdout := "CRITICAL: DP " ++ lib.verbQ (dpurl lib c) ++ " timed out after " ++
          toString (toInt64 lib c.timeout) ++ " seconds.\n"
        exitCode := 2 } := by
    rw [← case_timeout_stdout]
    rfl
  refine ⟨?_, ?_⟩
  · rw [run_check_timer, e]
    rfl
  · intro hq
    rw [run_check_timer, debug_header_quiet lib c hq, Outcome.after_empty, e]

/-- At the default log level the sample run that times out prints the timeout
line alone. -/
theorem timeout_outcome_witness :
    run_check plainLib sampleConfig (sampleNet "Ok" 1) Selected.timer =
      { stdout := "CRITICAL: DP " ++ plainLib.verbQ (dpurl plainLib sampleConfig) ++
          " timed out after " ++ toString (toInt64 plainLib sampleConfig.timeout) ++
          " seconds.\n"
        exitCode := 2 } :=
  (timeout_outcome plainLib sampleConfig (sampleNet "Ok" 1)).2 (fun _ => rfl)

/-- Claim C7 fails on the code: when loading the document fails, the run ends
through `log.Fatalf`, with exit code 1 and a log line, not with the verdict
CRITICAL and exit code 2. -/
theorem parse_failure_exits_with_one :
    run_check plainLib sampleConfig failingNet Selected.pipeline =
        log_Fatalf plainLib "Problem loading document, error: %s" [Arg.str "unexpected EOF"] ∧
      (run_check plainLib sampleConfig failingNet Selected.pipeline).exitCode = 1 ∧
      (run_check plainLib sampleConfig failingNet Selected.pipeline).exitCode ≠ 2 := by
  have e : run_check plainLib sampleConfig failingNet Selected.pipeline =
      log_Fatalf plainLib "Problem loading document, error: %s" [Arg.str "unexpected EOF"] := by
    rw [run_check_docErr plainLib sampleConfig failingNet "unexpected EOF" rfl rfl rfl,
      debug_header_quiet plainLib sampleConfig (fun _ => rfl), Outcome.after_empty]
  refine ⟨e, ?_, ?_⟩
  · rw [e]; rfl
  · rw [e]
    show (1 : Int) ≠ 2
    decide

/-- Claim C8. `nagios_result` prints exactly the line
`<status>: <desc>, <path>, response time: <r rtime>|time=<r rtime>s;<r warn>s;<r crit>s`
followed by a newline, where `r` is the one rendering of the verb `%f`, and
the process ends with the exit code `ex_code`. -/
theorem nagios_result_line (lib : GoLib) (ex_code : Int) (status desc path : String)
    (rtime warn crit : F64) :
    nagios_result lib ex_code status desc path rtime warn crit =
      { stdout := status ++ ": " ++ desc ++ ", " ++ path ++ ", response time: " ++
          lib.verbF rtime ++ "|time=" ++ lib.verbF rtime ++ "s;" ++ lib.verbF warn ++ "s;" ++
          lib.verbF crit ++ "s" ++ "\n"
        exitCode := ex_code } := by
  have h := nagios_result_stdout lib ex_code status desc path rtime warn crit
  have e : nagios_result lib ex_code status desc path rtime warn crit =
      { stdout := (nagios_result lib ex_code status desc path rtime warn crit).stdout
        exitCode := ex_code } := rfl
  rw [e, h]
  congr 1
  apply String.ext
  simp [String.data_append]

/-- Claim C9, as stated, fails: no `/` is put between the port and the path.
A path without a leading slash follows the port directly, and a path with one
is not given a second. -/
theorem url_slash_counterexample :
    dpurl plainLib { sampleConfig with urlpath := "dp" } = "http://example.org:80dp" ∧
      dpurl plainLib { sampleConfig with urlpath := "dp" } ≠
        "http" ++ "://" ++ "example.org" ++ ":" ++ toString (80 : Int) ++ "/" ++ "dp" ∧
      dpurl plainLib sampleConfig = "http://example.org:80/dp" ∧
      dpurl plainLib sampleConfig ≠
        sampleConfig.protocol ++ "://" ++ sampleConfig.hostname ++ ":" ++
          toString sampleConfig.port ++ "/" ++ sampleConfig.urlpath := by
  refine ⟨by decide, by decide, by decide, by decide⟩

/-- Claim C9, amended. The URL `run_check` builds and hands to `scrape` is the
concatenation of the protocol, `://`, the host, `:`, the port in decimal, and
the path as given: nothing is inserted between port and path, and no component
is validated or rewritten. -/
theorem url_is_concatenation (lib : GoLib) (c : Config) (net : Net) :
    dpurl lib c =
        c.protocol ++ "://" ++ c.hostname ++ ":" ++ toString c.port ++ c.urlpath ∧
      run_check lib c net Selected.pipeline =
        Outcome.after (debug_header lib c)
          (match scrape lib net
              (c.protocol ++ "://" ++ c.hostname ++ ":" ++ toString c.port ++ c.urlpath) with
            | Flow.exit o => o
            | Flow.ret res => Outcome.after (debug_result lib res) (case_result lib c res)) := by
  refine ⟨dpurl_eq lib c, ?_⟩
  rw [← dpurl_eq lib c]
  rfl

/-! ### The armed deadline -/

theorem wrapInt64_of_range (n : Int) (h0 : 0 ≤ n) (h1 : n ≤ 9223372036000000000) :
    wrapInt64 n = n := by
  unfold wrapInt64
  norm_num
  omega

/-- Conversion of a finite non-negative value whose whole part fits. -/
theorem toInt64_of_nonneg (lib : GoLib) (t : F64) (hf : t.isFinite = true)
    (h0 : F64.ge t (F64.fin 0) = true) (hb : ⌊t.val⌋ ≤ 9223372036) :
    toInt64 lib t = ⌊t.val⌋ ∧ 0 ≤ ⌊t.val⌋ := by
  cases t with
  | nan => exact absurd hf (by decide)
  | posInf => exact absurd hf (by decide)
  | negInf => exact absurd hf (by decide)
  | negZero => simp [toInt64, F64.val]
  | fin q =>
    have hq : 0 ≤ q := by
      simpa [F64.ge, F64.le, F64.isNaN, F64.cls, F64.val] using h0
    have hfl : 0 ≤ ⌊q⌋ := Int.floor_nonneg.mpr hq
    have hb2 : ⌊q⌋ ≤ 9223372036 := hb
    refine ⟨?_, hfl⟩
    have hr : -(2 ^ 63 : Int) ≤ ⌊q⌋ ∧ ⌊q⌋ < 2 ^ 63 := by
      constructor
      · have : -(2 ^ 63 : Int) ≤ 0 := by norm_num
        omega
      · have : (9223372036 : Int) < 2 ^ 63 := by norm_num
        omega
    simp only [toInt64, F64.val, hq, if_true, hr, and_self]

theorem deadline_of_nonneg (lib : GoLib) (t : F64) (hf : t.isFinite = true)
    (h0 : F64.ge t (F64.fin 0) = true) (hb : ⌊t.val⌋ ≤ 9223372036) :
    deadline lib t = ⌊t.val⌋ * Second := by
  obtain ⟨e, hfl⟩ := toInt64_of_nonneg lib t hf h0 hb
  unfold deadline
  rw [e, wrapInt64_of_range _ (by unfold Second; omega) (by unfold Second; omega)]
  exact mul_comm _ _


theorem append_right_cancel (a b c : String) (h : a ++ c = b ++ c) : a = b := by
  apply String.ext
  have hd := congrArg String.data h
  rw [String.data_append, String.data_append] at hd
  exact List.append_cancel_right hd

/-- Claim C10, as stated, fails, in two ways.  A timeout of 9223372037 seconds
is not negative, and the duration armed for it is not 9223372037 seconds but a
negative number of nanoseconds, the product having wrapped around.  And the
timeouts 30.5 and 30 have the same whole part, yet at log level debug the two
runs differ: the debug line `Timeout      : %f` shows the configured value. -/
theorem deadline_overflow_counterexample :
    F64.ge (F64.fin 9223372037) (F64.fin 0) = true ∧
      ⌊(F64.fin 9223372037).val⌋ = 9223372037 ∧
      toInt64 plainLib (F64.fin 9223372037) = 9223372037 ∧
      deadline plainLib (F64.fin 9223372037) = -9223372036709551616 ∧
      deadline plainLib (F64.fin 9223372037) ≠ ⌊(F64.fin 9223372037).val⌋ * Second ∧
      ⌊(F64.fin (61 / 2)).val⌋ = ⌊(F64.fin 30).val⌋ ∧
      debug_header debugLib { sampleConfig with timeout := F64.fin (61 / 2) } ≠
        debug_header debugLib { sampleConfig with timeout := F64.fin 30 } ∧
      run_check debugLib { sampleConfig with timeout := F64.fin (61 / 2) } (sampleNet "Ok" 1)
          Selected.pipeline ≠
        run_check debugLib { sampleConfig with timeout := F64.fin 30 } (sampleNet "Ok" 1)
          Selected.pipeline := by
  have hfl : ⌊(F64.fin 9223372037).val⌋ = 9223372037 := by
    show ⌊(9223372037 : ℚ)⌋ = 9223372037
    exact_mod_cast Int.floor_intCast (9223372037 : Int)
  have hd : deadline plainLib (F64.fin 9223372037) = -9223372036709551616 := by
    simp [deadline, toInt64, wrapInt64, Second]
  have hfl2 : ⌊(F64.fin (61 / 2)).val⌋ = ⌊(F64.fin 30).val⌋ := by
    have h1 : ⌊(F64.fin (61 / 2)).val⌋ = 30 := by
      show ⌊(61 / 2 : ℚ)⌋ = 30
      rw [Int.floor_eq_iff]
      norm_num
    have h2 : ⌊(F64.fin 30).val⌋ = 30 := by
      show ⌊(30 : ℚ)⌋ = 30
      exact_mod_cast Int.floor_intCast (30 : Int)
    rw [h1, h2]
  have hne : debug_header debugLib { sampleConfig with timeout := F64.fin (61 / 2) } ≠
      debug_header debugLib { sampleConfig with timeout := F64.fin 30 } := by
    rw [debug_header_sample, debug_header_sample, fixed6_thirty, fixed6_thirty_and_a_half]
    set_option maxRecDepth 100000 in decide
  refine ⟨?_, hfl, ?_, hd, ?_, hfl2, hne, ?_⟩
  · simp [F64.ge, F64.le, F64.isNaN, F64.cls, F64.val]
  · simp [toInt64]
  · rw [hd, hfl]
    unfold Second
    decide
  · intro h
    rw [run_check_result debugLib _ (sampleNet "Ok" 1) rfl rfl rfl,
      run_check_result debugLib _ (sampleNet "Ok" 1) rfl rfl rfl] at h
    have hs := congrArg Outcome.stdout h
    exact hne (append_right_cancel _ _ _ hs)

/-- Claim C10, amended. For every finite timeout `t ≥ 0` whose whole part is at
most 9223372036 seconds, the duration `run_check` arms is exactly `floor t`
seconds, and `floor t` is the integer the timeout message prints; a timeout
below one second arms a zero-length deadline; and two such timeouts with the
same whole part arm the same deadline, print the same timeout line and give
runs that are the same after the debug lines written at the start of
`run_check`, hence the same run when no debug line is written. -/
theorem deadline_is_whole_seconds (lib : GoLib) (t : F64) (hf : t.isFinite = true)
    (h0 : F64.ge t (F64.fin 0) = true) (hb : ⌊t.val⌋ ≤ 9223372036) :
    deadline lib t = ⌊t.val⌋ * 1000000000 ∧
      (∀ c : Config, (case_timeout lib { c with timeout := t }).stdout =
        "CRITICAL: DP " ++ lib.verbQ (dpurl lib c) ++ " timed out after " ++
          toString ⌊t.val⌋ ++ " seconds.\n") ∧
      (F64.lt t (F64.fin 1) = true → deadline lib t = 0) ∧
      (∀ u : F64, u.isFinite = true → F64.ge u (F64.fin 0) = true → ⌊u.val⌋ = ⌊t.val⌋ →
        deadline lib u = deadline lib t ∧
        (∀ c : Config,
          case_timeout lib { c with timeout := u } = case_timeout lib { c with timeout := t }) ∧
        (∀ (c : Config) (net : Net) (sel : Selected), ∃ v : Outcome,
          run_check lib { c with timeout := u } net sel =
              Outcome.after (debug_header lib { c with timeout := u }) v ∧
            run_check lib { c with timeout := t } net sel =
              Outcome.after (debug_header lib { c with timeout := t }) v) ∧
        ((∀ msg, lib.logDebug msg = "") →
          ∀ (c : Config) (net : Net) (sel : Selected),
            run_check lib { c with timeout := u } net sel =
              run_check lib { c with timeout := t } net sel)) := by
  have hd := deadline_of_nonneg lib t hf h0 hb
  obtain ⟨hi, _⟩ := toInt64_of_nonneg lib t hf h0 hb
  refine ⟨hd, ?_, ?_, ?_⟩
  · intro c
    rw [case_timeout_stdout]
    show "CRITICAL: DP " ++ lib.verbQ (dpurl lib c) ++ " timed out after " ++
      toString (toInt64 lib t) ++ " seconds.\n" = _
    rw [hi]
  · intro hl
    have hv : t.val < 1 := by
      cases t with
      | nan => exact absurd hf (by decide)
      | posInf => exact absurd hf (by decide)
      | negInf => exact absurd hf (by decide)
      | negZero => simp [F64.val]
      | fin q => simpa [F64.lt, F64.isNaN, F64.cls, F64.val] using hl
    have hz : ⌊t.val⌋ < 1 := Int.floor_lt.mpr (by exact_mod_cast hv)
    have h00 := (toInt64_of_nonneg lib t hf h0 hb).2
    have : ⌊t.val⌋ = 0 := by omega
    rw [hd, this]
    rfl
  · intro u huf hu0 hfl
    have hub : ⌊u.val⌋ ≤ 9223372036 := by rw [hfl]; exact hb
    have hud := deadline_of_nonneg lib u huf hu0 hub
    obtain ⟨hui, _⟩ := toInt64_of_nonneg lib u huf hu0 hub
    have hct : ∀ c : Config,
        case_timeout lib { c with timeout := u } = case_timeout lib { c with timeout := t } := by
      intro c
      simp only [case_timeout]
      rw [hui, hi, hfl]
      rfl
    have hsame : ∀ (c : Config) (net : Net) (sel : Selected), ∃ v : Outcome,
        run_check lib { c with timeout := u } net sel =
            Outcome.after (debug_header lib { c with timeout := u }) v ∧
          run_check lib { c with timeout := t } net sel =
            Outcome.after (debug_header lib { c with timeout := t }) v := by
      intro c net sel
      cases sel with
      | timer =>
        exact ⟨case_timeout lib { c with timeout := t },
          by rw [run_check_timer, hct c], run_check_timer _ _ _⟩
      | pipeline => exact ⟨_, rfl, rfl⟩
    refine ⟨by rw [hud, hd, hfl], hct, hsame, ?_⟩
    intro hq c net sel
    obtain ⟨v, h1, h2⟩ := hsame c net sel
    rw [h1, h2, debug_header_quiet lib _ hq, debug_header_quiet lib _ hq]

/-- A timeout of 30.5 seconds arms 30 seconds, as a timeout of 30 does, and at
the default log level the two runs are the same. -/
theorem deadline_is_whole_seconds_witness :
    deadline plainLib (F64.fin (61 / 2)) = 30 * 1000000000 ∧
      deadline plainLib (F64.fin 30) = deadline plainLib (F64.fin (61 / 2)) ∧
      run_check plainLib { sampleConfig with timeout := F64.fin 30 } (sampleNet "Ok" 1)
          Selected.timer =
        run_check plainLib { sampleConfig with timeout := F64.fin (61 / 2) }
          (sampleNet "Ok" 1) Selected.timer :=
  have hfl : ⌊(F64.fin (61 / 2)).val⌋ = 30 := by
    show ⌊(61 / 2 : ℚ)⌋ = 30
    rw [Int.floor_eq_iff]
    norm_num
  have hfl2 : ⌊(F64.fin 30).val⌋ = ⌊(F64.fin (61 / 2)).val⌋ := by
    rw [hfl]
    show ⌊(30 : ℚ)⌋ = 30
    exact_mod_cast Int.floor_intCast (30 : Int)
  have h := deadline_is_whole_seconds plainLib (F64.fin (61 / 2)) rfl
    (by
      simp [F64.ge, F64.le, F64.isNaN, F64.cls, F64.val]
      norm_num)
    (by rw [hfl]; decide)
  have hu := h.2.2.2 (F64.fin 30) rfl
    (by simp [F64.ge, F64.le, F64.isNaN, F64.cls, F64.val]) hfl2
  ⟨by rw [h.1, hfl], hu.1,
    hu.2.2.2 (fun _ => rfl) sampleConfig (sampleNet "Ok" 1) Selected.timer⟩

end DeepPing
